import Mathlib

/-!
Verification of the LearnRust repository's two example programs.

Program A (`src/the_book/projects/modules/src/main.rs`): a binary crate whose
`main` constructs one `Asparagus` value and prints one line.

Program B (`src/the_book/projects/restaurant/src/lib.rs`): a library crate with
a module tree `front_of_house { pub hosting { pub add_to_waitlist, seat_at_table },
serving { take_order, serve_order, take_payment } }` and a public function
`eat_at_restaurant` that calls `add_to_waitlist` twice, once through an absolute
path and once through a relative path.

Executions are embedded as finite traces of events: function-call markers,
value constructions, lines written to standard output, and (never produced
by this code) runtime errors.  Path resolution in Program B is embedded as a
lookup over the declared module tree with the source's visibility rules.
-/

/-- Identifiers for the five functions of Program B's `front_of_house` tree. -/
inductive FnId where
  | add_to_waitlist
  | seat_at_table
  | take_order
  | serve_order
  | take_payment
deriving DecidableEq, Repr

/-- An observable or internal event of an execution. `error` is the shape a
runtime failure would take; no function of this repository ever emits one. -/
inductive Event where
  | call (f : FnId)
  | construct (tyName : String)
  | out (line : String)
  | error (msg : String)
deriving DecidableEq, Repr

/-- Body trace of `fn add_to_waitlist() {}` (empty body). -/
def add_to_waitlist_body : List Event := []

/-- Body trace of `fn seat_at_table() {}` (empty body). -/
def seat_at_table_body : List Event := []

/-- Body trace of `fn take_order() {}` (empty body). -/
def take_order_body : List Event := []

/-- Body trace of `fn serve_order() {}` (empty body). -/
def serve_order_body : List Event := []

/-- Body trace of `fn take_payment() {}` (empty body). -/
def take_payment_body : List Event := []

/-- The body trace of each `front_of_house` function, read off its source. -/
def body : FnId → List Event
  | .add_to_waitlist => add_to_waitlist_body
  | .seat_at_table => seat_at_table_body
  | .take_order => take_order_body
  | .serve_order => serve_order_body
  | .take_payment => take_payment_body

/-- Invoking a function records the call and then runs its body. -/
def invoke (f : FnId) : List Event := Event.call f :: body f

/-- A function declaration inside a module: Rust name, `pub` or not, identity. -/
structure FnDecl where
  fname : String
  isPub : Bool
  fid : FnId
deriving DecidableEq, Repr

/-- A second-level module (child of a top-level module), holding functions. -/
structure SubMod where
  sname : String
  isPub : Bool
  fns : List FnDecl
deriving DecidableEq, Repr

/-- A top-level module (child of the crate root), holding submodules. -/
structure TopMod where
  tname : String
  isPub : Bool
  subs : List SubMod
deriving DecidableEq, Repr

/-- `pub mod hosting { pub fn add_to_waitlist() {}  fn seat_at_table() {} }` -/
def hosting : SubMod :=
  ⟨"hosting", true,
    [⟨"add_to_waitlist", true, .add_to_waitlist⟩,
     ⟨"seat_at_table", false, .seat_at_table⟩]⟩

/-- `mod serving { fn take_order() {}  fn serve_order() {}  fn take_payment() {} }` -/
def serving : SubMod :=
  ⟨"serving", false,
    [⟨"take_order", false, .take_order⟩,
     ⟨"serve_order", false, .serve_order⟩,
     ⟨"take_payment", false, .take_payment⟩]⟩

/-- `mod front_of_house { ... }` — private, declared in the crate root. -/
def front_of_house : TopMod := ⟨"front_of_house", false, [hosting, serving]⟩

/-- The top-level modules declared in the crate root of Program B's lib.rs. -/
def crateMods : List TopMod := [front_of_house]

/-- Resolve a three-segment path `[top, sub, fn]` from the crate root scope
(where `eat_at_restaurant` is defined).  The first segment is a sibling item
in the current module, so its own visibility is not checked; descending into
the submodule and reaching the function both require `pub`. -/
def resolveFromRoot : List String → Option FnId
  | [m, s, f] => do
    let tm ← crateMods.find? (fun t => t.tname == m)
    let sm ← tm.subs.find? (fun u => u.sname == s)
    if sm.isPub then
      let fd ← sm.fns.find? (fun d => d.fname == f)
      if fd.isPub then some fd.fid else none
    else none
  | _ => none

/-- Resolve a path written in `eat_at_restaurant`: an absolute path starts
with `crate` and is resolved from the crate root; a relative path starts from
the current scope, which here is also the crate root. -/
def resolvePath (p : List String) : Option FnId :=
  match p with
  | "crate" :: rest => resolveFromRoot rest
  | rest => resolveFromRoot rest

/-- Call the function a path resolves to.  Every path written in the source
resolves (an unresolvable path would be rejected by the compiler). -/
def callPath (p : List String) : List Event :=
  match resolvePath p with
  | some f => invoke f
  | none => []

/-- `pub fn eat_at_restaurant()`: one call through the absolute path
`crate::front_of_house::hosting::add_to_waitlist` and one through the
relative path `front_of_house::hosting::add_to_waitlist`. -/
def eat_at_restaurant : List Event :=
  callPath ["crate", "front_of_house", "hosting", "add_to_waitlist"] ++
  callPath ["front_of_house", "hosting", "add_to_waitlist"]

/-- The module `(top, sub)` in which a function is declared, looked up in the
declared module tree. -/
def declaringModule (f : FnId) : Option (String × String) :=
  crateMods.findSome? (fun tm =>
    tm.subs.findSome? (fun sm =>
      if sm.fns.any (fun d => d.fid == f) then some (tm.tname, sm.sname)
      else none))

/-- Modelled from the spec: the zero-field marker type `Asparagus` of Program A.
It is declared in the `garden::vegetables` module, whose source file
(`src/garden.rs` with its `vegetables` submodule) is not present under src/;
the spec describes it as a zero-field marker type with no attributes. -/
structure Asparagus where
deriving DecidableEq, Repr

/-- Modelled from the spec: the debug representation of `Asparagus`, which the
spec says renders as the type's name `Asparagus`. -/
def Asparagus.debugRepr (_ : Asparagus) : String := "Asparagus"

/-- Constructing `Asparagus {}`: yields the value and records one construction. -/
def constructAsparagus : Asparagus × List Event :=
  (⟨⟩, [Event.construct "Asparagus"])

/-- `println!` writes one line to standard output. -/
def printlnTrace (s : String) : List Event := [Event.out s]

/-- The trace of Program A's `main`: `let plant = Asparagus {};` then
`println!("I'm growing {:?}!", plant)`. -/
def mainTrace : List Event :=
  let (plant, t) := constructAsparagus
  t ++ printlnTrace ("I'm growing " ++ plant.debugRepr ++ "!")

/-- The outcome of one process run: its event trace and its exit code. -/
structure RunResult where
  events : List Event
  exitCode : Nat
deriving DecidableEq, Repr

/-- A full run of Program A.  `main` contains no panicking or failing
operation, so the process exits with code 0. -/
def mainRun : RunResult := ⟨mainTrace, 0⟩

/-- A run of Program A in an arbitrary process context.  `main` reads neither
the environment variables nor the command-line arguments, so the outcome does
not depend on them. -/
def runProgramA (_envVars : List (String × String)) (_args : List String) :
    RunResult :=
  mainRun

/-- The lines a trace writes to standard output. -/
def stdoutOf (t : List Event) : List String :=
  t.filterMap (fun e => match e with | .out s => some s | _ => none)

/-- Whether an event is a line written to standard output. -/
def isOut : Event → Bool
  | .out _ => true
  | _ => false

/-- Whether an event is a value construction. -/
def isConstruct : Event → Bool
  | .construct _ => true
  | _ => false

/-- Whether an event is a runtime error. -/
def isError : Event → Bool
  | .error _ => true
  | _ => false

/-- Whether an event is observable from outside the process: output and
errors are; internal calls and constructions are not. -/
def isObservable (e : Event) : Bool := isOut e || isError e

/-- The observable part of a trace. -/
def observables (t : List Event) : List Event := t.filter isObservable

/-- How many times a trace constructs a value. -/
def countConstructs (t : List Event) : Nat := (t.filter isConstruct).length

/-- How many times a trace calls the function `f`. -/
def callCount (f : FnId) (t : List Event) : Nat :=
  (t.filter (fun e => e == Event.call f)).length

/-- The trace of `n` invocations of `eat_at_restaurant` in sequence. -/
def iterateEat : Nat → List Event
  | 0 => []
  | n + 1 => eat_at_restaurant ++ iterateEat n

theorem observables_append (a b : List Event) :
    observables (a ++ b) = observables a ++ observables b :=
  List.filter_append a b

theorem observables_eat : observables eat_at_restaurant = [] := rfl

theorem observables_iterateEat (n : Nat) : observables (iterateEat n) = [] := by
  induction n with
  | zero => rfl
  | succ k ih =>
      rw [iterateEat, observables_append, observables_eat, ih]
      rfl

/-- C1: Running Program A constructs exactly one `Asparagus`, writes exactly
the single line `I'm growing Asparagus!` to standard output, performs no
other side effect (every remaining event is that one construction), and
exits with the success status 0. -/
theorem c1_program_a_run :
    stdoutOf mainRun.events = ["I'm growing Asparagus!"] ∧
    countConstructs mainRun.events = 1 ∧
    mainRun.events.filter (fun e => !(isOut e) && !(isConstruct e)) = [] ∧
    mainRun.exitCode = 0 :=
  ⟨rfl, rfl, rfl, rfl⟩

/-- C2: A call of `eat_at_restaurant` has no observable effect: it writes
nothing to standard output, raises no error, constructs no value, and thus
changes no state. -/
theorem c2_eat_no_observable_effect :
    observables eat_at_restaurant = [] ∧
    stdoutOf eat_at_restaurant = [] ∧
    eat_at_restaurant.filter isError = [] ∧
    countConstructs eat_at_restaurant = 0 :=
  ⟨rfl, rfl, rfl, rfl⟩

/-- C3: Invoking `eat_at_restaurant` `n` times in sequence is observably
equivalent to invoking it once, and to invoking it zero times: the
observable part of the trace is empty for every `n`. -/
theorem c3_eat_idempotent_noop (n : Nat) :
    observables (iterateEat n) = observables (iterateEat 1) ∧
    observables (iterateEat n) = observables (iterateEat 0) := by
  rw [observables_iterateEat n, observables_iterateEat 1, observables_iterateEat 0]
  exact ⟨rfl, rfl⟩

/-- C4: Every event of `eat_at_restaurant` is a call to a function whose body
is empty and that is declared two module levels deep inside `front_of_house`,
which is itself private. -/
theorem c4_only_nested_empty_calls :
    front_of_house.isPub = false ∧
    eat_at_restaurant.all (fun e =>
      match e with
      | Event.call f =>
          ((declaringModule f).map Prod.fst == some "front_of_house") &&
            (body f == [])
      | _ => false) = true :=
  ⟨rfl, rfl⟩

/-- C5: Each of the five nested functions, invoked independently, terminates
with an empty body trace: its invocation records only the call itself, writes
no output, raises no error, and constructs nothing. -/
theorem c5_nested_fns_trivially_total (f : FnId) :
    body f = [] ∧ invoke f = [Event.call f] ∧ observables (invoke f) = [] := by
  cases f <;> exact ⟨rfl, rfl, rfl⟩

/-- C6: No operation in either program can fail: the run of Program A and
every invocation of `eat_at_restaurant` or of any nested function contains no
error event, and Program A exits successfully. -/
theorem c6_no_failure_paths :
    mainRun.events.filter isError = [] ∧
    mainRun.exitCode = 0 ∧
    eat_at_restaurant.filter isError = [] ∧
    ∀ f : FnId, (invoke f).filter isError = [] := by
  refine ⟨rfl, rfl, rfl, ?_⟩
  intro f
  cases f <;> rfl

/-- C7: Every invocation of each entry point halts with a finite trace:
Program A's run is two events (one construction, one print) and a call of
`eat_at_restaurant` is two events (two no-op calls). -/
theorem c7_entry_points_terminate :
    mainRun.events.length = 2 ∧ eat_at_restaurant.length = 2 :=
  ⟨rfl, rfl⟩

/-- C8: The absolute path `crate::front_of_house::hosting::add_to_waitlist`
and the relative path `front_of_house::hosting::add_to_waitlist` resolve to
the same function, so `eat_at_restaurant` is exactly two invocations of
`add_to_waitlist`. -/
theorem c8_paths_resolve_to_same_fn :
    resolvePath ["crate", "front_of_house", "hosting", "add_to_waitlist"] =
      some FnId.add_to_waitlist ∧
    resolvePath ["front_of_house", "hosting", "add_to_waitlist"] =
      some FnId.add_to_waitlist ∧
    eat_at_restaurant =
      invoke FnId.add_to_waitlist ++ invoke FnId.add_to_waitlist :=
  ⟨rfl, rfl, rfl⟩

/-- C9: In the execution of the public interface `eat_at_restaurant`,
`seat_at_table`, `take_order`, `serve_order` and `take_payment` are never
called; only `add_to_waitlist` is, exactly twice. -/
theorem c9_private_fns_never_called :
    callCount .seat_at_table eat_at_restaurant = 0 ∧
    callCount .take_order eat_at_restaurant = 0 ∧
    callCount .serve_order eat_at_restaurant = 0 ∧
    callCount .take_payment eat_at_restaurant = 0 ∧
    callCount .add_to_waitlist eat_at_restaurant = 2 :=
  ⟨rfl, rfl, rfl, rfl, rfl⟩

/-- C10: Program A is deterministic: any two runs, in arbitrary process
contexts, produce the same trace (hence the same standard output) and the
same exit status. -/
theorem c10_program_a_deterministic
    (e1 e2 : List (String × String)) (a1 a2 : List String) :
    runProgramA e1 a1 = runProgramA e2 a2 :=
  rfl
